import Mathlib

/-!
Shallow embedding of the FastAPI-Advanced-Validation-Demo repository
(src/models.py and src/main.py).

A Python `str` is modelled as a `List Char` of Unicode code points
(`PyStr`); `len` is `List.length`, `re.search` of a character class is
`List.any`, a fully anchored character-class match is `List.all`.
Error messages are Lean `String` literals copied from the source.
-/

namespace FastAPIValidation

/-- A Python string: a sequence of Unicode code points. -/
abbrev PyStr := List Char

/-- The character class `[A-Z]` of the password regex (uppercase Latin letter). -/
def isUpperLatin (c : Char) : Bool := 'A' ≤ c && c ≤ 'Z'

/-- The character class `[a-z]` of the password regex (lowercase Latin letter). -/
def isLowerLatin (c : Char) : Bool := 'a' ≤ c && c ≤ 'z'

/-- The character class `[0-9]` of the password regex (decimal digit). -/
def isDigitChar (c : Char) : Bool := '0' ≤ c && c ≤ '9'

/-- The special-character class of the password regex, written in the
source as the regex class containing `! @ # $ % ^ & * ( ) , . ? " : | < >`
and both curly braces (here `Char.ofNat 0x7b` and `Char.ofNat 0x7d`). -/
def specialChars : PyStr :=
  ['!', '@', '#', '$', '%', '^', '&', '*', '(', ')', ',', '.', '?',
   Char.ofNat 0x22, ':', Char.ofNat 0x7b, Char.ofNat 0x7d, '|', '<', '>']

/-- Membership in the password special-character class. -/
def isSpecialChar (c : Char) : Bool := specialChars.contains c

/-- `password_must_be_strong` from src/models.py: sequential checks, the
first failing check raises `ValueError` with its message; `re.search`
of a character class succeeds iff some character of the string is in the
class. -/
def password_must_be_strong (v : PyStr) : Except String PyStr :=
  if v.length < 8 then
    Except.error "Password must be at least 8 characters long"
  else if v.any isUpperLatin = false then
    Except.error "Password must contain at least one uppercase letter"
  else if v.any isLowerLatin = false then
    Except.error "Password must contain at least one lowercase letter"
  else if v.any isDigitChar = false then
    Except.error "Password must contain at least one number"
  else if v.any isSpecialChar = false then
    Except.error "Password must contain at least one special character"
  else
    Except.ok v

/-- Python's `str.isalnum` per-character test. It is Unicode-aware:
true for Unicode letters and numeric characters, not only ASCII.
The full Unicode table is impractical to embed, so this is a partial
table: ASCII letters and digits plus a selection of well-known
non-ASCII alphanumeric ranges (Latin-1 letters, Latin Extended, Greek,
Cyrillic, Arabic-Indic and Devanagari digits, kana, CJK ideographs,
Hangul). Characters outside the table are treated as non-alphanumeric. -/
def pyIsAlnum (c : Char) : Bool :=
  isUpperLatin c || isLowerLatin c || isDigitChar c ||
  (0xC0 ≤ c.toNat && c.toNat ≤ 0xD6) ||
  (0xD8 ≤ c.toNat && c.toNat ≤ 0xF6) ||
  (0xF8 ≤ c.toNat && c.toNat ≤ 0x2C1) ||
  (0x391 ≤ c.toNat && c.toNat ≤ 0x3A1) ||
  (0x3A3 ≤ c.toNat && c.toNat ≤ 0x3C9) ||
  (0x400 ≤ c.toNat && c.toNat ≤ 0x481) ||
  (0x660 ≤ c.toNat && c.toNat ≤ 0x669) ||
  (0x966 ≤ c.toNat && c.toNat ≤ 0x96F) ||
  (0x3041 ≤ c.toNat && c.toNat ≤ 0x3096) ||
  (0x30A1 ≤ c.toNat && c.toNat ≤ 0x30FA) ||
  (0x4E00 ≤ c.toNat && c.toNat ≤ 0x9FFF) ||
  (0xAC00 ≤ c.toNat && c.toNat ≤ 0xD7A3)

/-- Python's `str.isalnum`: true iff the string is nonempty and every
character is alphanumeric. -/
def pyStrIsAlnum (v : PyStr) : Bool := !v.isEmpty && v.all pyIsAlnum

/-- `username_must_be_alphanumeric` from src/models.py: the `isalnum`
check first, then the two length checks; the first failing check raises
`ValueError` with its message. -/
def username_must_be_alphanumeric (v : PyStr) : Except String PyStr :=
  if pyStrIsAlnum v = false then
    Except.error "Username must be alphanumeric (letters and numbers only)"
  else if v.length < 3 then
    Except.error "Username must be at least 3 characters long"
  else if v.length > 20 then
    Except.error "Username must be at most 20 characters long"
  else
    Except.ok v

/-- `\s` of a Python 3 `re` pattern over `str`: Unicode whitespace
(space, tab, newline, carriage return, vertical tab, form feed, the
file/group/record/unit separators, NEL, no-break space, and the Unicode
space separators and line/paragraph separators). -/
def pyIsSpace (c : Char) : Bool :=
  c = ' ' || c.toNat = 0x09 || c.toNat = 0x0A || c.toNat = 0x0B ||
  c.toNat = 0x0C || c.toNat = 0x0D ||
  (0x1C ≤ c.toNat && c.toNat ≤ 0x1F) ||
  c.toNat = 0x85 || c.toNat = 0xA0 || c.toNat = 0x1680 ||
  (0x2000 ≤ c.toNat && c.toNat ≤ 0x200A) ||
  c.toNat = 0x2028 || c.toNat = 0x2029 || c.toNat = 0x202F ||
  c.toNat = 0x205F || c.toNat = 0x3000

/-- The character class of the full-name regex: Latin letters `A-Za-z`,
whitespace `\s`, hyphen, apostrophe (`Char.ofNat 0x27`), period. -/
def fullNameAllowed (c : Char) : Bool :=
  isUpperLatin c || isLowerLatin c || pyIsSpace c ||
  c = '-' || c = Char.ofNat 0x27 || c = '.'

/-- The anchored whole-string match of the full-name pattern: at least
one character, all from the allowed class. (`$` may also match before a
trailing newline, but a newline is itself in the class via `\s`, so the
match succeeds exactly on nonempty all-allowed strings.) -/
def fullNameMatches (v : PyStr) : Bool := !v.isEmpty && v.all fullNameAllowed

/-- `full_name_must_be_proper_format` from src/models.py: `None` is
returned unchecked; a present value is checked against the anchored
pattern, then the two length checks, first failure raising `ValueError`. -/
def full_name_must_be_proper_format (v : Option PyStr) :
    Except String (Option PyStr) :=
  match v with
  | none => Except.ok none
  | some s =>
    if fullNameMatches s = false then
      Except.error "Full name can only contain letters, spaces, hyphens, apostrophes, and periods"
    else if s.length < 2 then
      Except.error "Full name must be at least 2 characters long"
    else if s.length > 50 then
      Except.error "Full name must be at most 50 characters long"
    else
      Except.ok (some s)

/-- Modelled from the spec: the `EmailStr` validation is performed by
pydantic's email-validator dependency, whose code is not part of this
repository. Per the spec, an email must be local-part `@` domain, the
domain containing at least one period-delimited label: exactly one `@`,
nonempty local part, and a domain that splits on periods into at least
two nonempty labels. -/
def validate_email (v : PyStr) : Except String PyStr :=
  match v.splitOn '@' with
  | [lp, domain] =>
    if lp.isEmpty then Except.error "value is not a valid email address"
    else if ((domain.splitOn '.').length ≥ 2 &&
             (domain.splitOn '.').all (fun p => !p.isEmpty)) = false then
      Except.error "value is not a valid email address"
    else Except.ok v
  | _ => Except.error "value is not a valid email address"

/-- The raw fields of an inbound POST /users/ payload, before pydantic
validation (the field order username, email, password, full_name is the
declaration order in `UserCreate`). -/
structure RawUser where
  username : PyStr
  email : PyStr
  password : PyStr
  full_name : Option PyStr
deriving Repr, DecidableEq

/-- A validated `UserCreate` instance. -/
structure UserCreate where
  username : PyStr
  email : PyStr
  password : PyStr
  full_name : Option PyStr
deriving Repr, DecidableEq

/-- One entry of a pydantic `ValidationError`: the failing field's name
and the validator's message. -/
structure FieldError where
  field : String
  msg : String
deriving Repr, DecidableEq

/-- The error entries contributed by one field's validator outcome. -/
def errOpt {α : Type} (f : String) : Except String α → List FieldError
  | Except.error m => [⟨f, m⟩]
  | Except.ok _ => []

/-- Pydantic v2 validation of a `UserCreate` payload: every field is
validated independently, in declaration order; within a field the
validator short-circuits at its first failing check, and the per-field
errors are collected into a single `ValidationError` listing one entry
per failing field. Construction succeeds iff no field fails. -/
def validateUser (r : RawUser) : Except (List FieldError) UserCreate :=
  let es :=
    errOpt "username" (username_must_be_alphanumeric r.username) ++
    errOpt "email" (validate_email r.email) ++
    errOpt "password" (password_must_be_strong r.password) ++
    errOpt "full_name" (full_name_must_be_proper_format r.full_name)
  if es.isEmpty then Except.ok ⟨r.username, r.email, r.password, r.full_name⟩
  else Except.error es

/-- The `db_user` dict appended to `fake_db` in src/main.py. -/
structure UserRecord where
  username : PyStr
  email : PyStr
  full_name : Option PyStr
  join_date : PyStr
  password : PyStr
  validation_status : String
deriving Repr, DecidableEq

/-- The `UserOut` response model from src/models.py: the response view,
with no password field. -/
structure UserOut where
  username : PyStr
  email : PyStr
  full_name : Option PyStr
  join_date : PyStr
  validation_status : String
deriving Repr, DecidableEq

/-- The `response_model=UserOut` filtering of the returned record:
keep the five `UserOut` fields, drop the rest (the password). -/
def toUserOut (r : UserRecord) : UserOut :=
  ⟨r.username, r.email, r.full_name, r.join_date, r.validation_status⟩

/-- `create_user` from src/main.py, with the process state (`fake_db`)
passed explicitly and `now` standing for the string produced by
`datetime.now().isoformat()` at the time of the call. Pydantic
validation runs before the handler body; on failure the request is
rejected with the validation errors and the state is untouched; on
success the record is built, appended to the database, and returned
(filtered by the response model). -/
def create_user (now : PyStr) (db : List UserRecord) (r : RawUser) :
    Except (List FieldError) UserOut × List UserRecord :=
  match validateUser r with
  | Except.error es => (Except.error es, db)
  | Except.ok u =>
    let dbUser : UserRecord :=
      ⟨u.username, u.email, u.full_name, now, u.password, "passed"⟩
    (Except.ok (toUserOut dbUser), db ++ [dbUser])

/-- The static body of GET /validation-rules/ — password rules part. -/
structure PasswordRules where
  min_length : Nat
  requires_uppercase : Bool
  requires_lowercase : Bool
  requires_number : Bool
  requires_special_char : Bool
deriving Repr, DecidableEq

/-- The static body of GET /validation-rules/ — username rules part. -/
structure UsernameRules where
  alphanumeric_only : Bool
  min_length : Nat
  max_length : Nat
deriving Repr, DecidableEq

/-- The static body of GET /validation-rules/ — full-name rules part. -/
structure FullNameRules where
  allowed_characters : String
  min_length : Nat
  max_length : Nat
  optional : Bool
deriving Repr, DecidableEq

/-- The static body of GET /validation-rules/. -/
structure RulesDescription where
  password_rules : PasswordRules
  username_rules : UsernameRules
  full_name_rules : FullNameRules
deriving Repr, DecidableEq

/-- `get_validation_rules` from src/main.py: a handler with no inputs
and no state, returning a hard-coded document. -/
def get_validation_rules : Unit → RulesDescription := fun _ =>
  ⟨⟨8, true, true, true, true⟩,
   ⟨true, 3, 20⟩,
   ⟨"letters, spaces, hyphens, apostrophes, periods", 2, 50, true⟩⟩

/-- The static body of GET / . -/
structure ServiceDescription where
  message : String
  create_user_endpoint : String
  validation_rules_endpoint : String
  interactive_docs_endpoint : String
deriving Repr, DecidableEq

/-- `root` from src/main.py: a handler with no inputs and no state,
returning a hard-coded service description. -/
def root : Unit → ServiceDescription := fun _ =>
  ⟨"FastAPI Advanced Validation Demo",
   "POST /users/", "GET /validation-rules/", "GET /docs"⟩

/-- Whether an `Except` result is a success. -/
def exOk {ε α : Type} : Except ε α → Bool
  | Except.ok _ => true
  | Except.error _ => false

section Lemmas

lemma errOpt_eq_nil {α : Type} (f : String) (e : Except String α) :
    errOpt f e = [] ↔ exOk e = true := by
  cases e <;> simp [errOpt, exOk]

lemma password_ok_iff (v : PyStr) :
    password_must_be_strong v = Except.ok v ↔
      (8 ≤ v.length ∧ v.any isUpperLatin = true ∧ v.any isLowerLatin = true ∧
       v.any isDigitChar = true ∧ v.any isSpecialChar = true) := by
  unfold password_must_be_strong
  split_ifs with h1 h2 h3 h4 h5 <;> simp_all

lemma password_ok_shape (v w : PyStr) :
    password_must_be_strong v = Except.ok w → w = v := by
  unfold password_must_be_strong
  split_ifs <;> intro h <;> simp_all

lemma isEmpty_false_of_three_le {v : PyStr} (h : 3 ≤ v.length) :
    v.isEmpty = false := by
  cases v <;> simp_all

lemma username_ok_iff (v : PyStr) :
    username_must_be_alphanumeric v = Except.ok v ↔
      (v.all pyIsAlnum = true ∧ 3 ≤ v.length ∧ v.length ≤ 20) := by
  unfold username_must_be_alphanumeric pyStrIsAlnum
  split_ifs with h1 h2 h3
  · constructor
    · intro h; exact absurd h (by simp)
    · rintro ⟨hall, hlen, -⟩
      have hne : v.isEmpty = false := isEmpty_false_of_three_le hlen
      simp [hne, hall] at h1
  · constructor
    · intro h; exact absurd h (by simp)
    · rintro ⟨-, hlen, -⟩; omega
  · constructor
    · intro h; exact absurd h (by simp)
    · rintro ⟨-, -, hlen⟩; omega
  · constructor
    · intro _
      simp only [Bool.not_eq_false, Bool.and_eq_true, Bool.not_eq_true'] at h1
      exact ⟨h1.2, by omega, by omega⟩
    · intro _; rfl

lemma fullname_ok_some_iff (s : PyStr) :
    full_name_must_be_proper_format (some s) = Except.ok (some s) ↔
      (s.all fullNameAllowed = true ∧ 2 ≤ s.length ∧ s.length ≤ 50) := by
  simp only [full_name_must_be_proper_format, fullNameMatches]
  split_ifs with h1 h2 h3
  · constructor
    · intro h; exact absurd h (by simp)
    · rintro ⟨hall, hlen, -⟩
      have hne : s.isEmpty = false := by cases s <;> simp_all
      simp [hne, hall] at h1
  · constructor
    · intro h; exact absurd h (by simp)
    · rintro ⟨-, hlen, -⟩; omega
  · constructor
    · intro h; exact absurd h (by simp)
    · rintro ⟨-, -, hlen⟩; omega
  · constructor
    · intro _
      simp only [Bool.not_eq_false, Bool.and_eq_true, Bool.not_eq_true'] at h1
      exact ⟨h1.2, by omega, by omega⟩
    · intro _; rfl

lemma validateUser_ok_val (r : RawUser) (u : UserCreate)
    (h : validateUser r = Except.ok u) :
    u = ⟨r.username, r.email, r.password, r.full_name⟩ := by
  simp only [validateUser] at h
  split at h
  · exact (Except.ok.inj h).symm
  · exact absurd h (by simp)

lemma validateUser_ok_iff (r : RawUser) :
    exOk (validateUser r) = true ↔
      (exOk (username_must_be_alphanumeric r.username) = true ∧
       exOk (validate_email r.email) = true ∧
       exOk (password_must_be_strong r.password) = true ∧
       exOk (full_name_must_be_proper_format r.full_name) = true) := by
  cases hu : username_must_be_alphanumeric r.username <;>
    cases he : validate_email r.email <;>
      cases hp : password_must_be_strong r.password <;>
        cases hf : full_name_must_be_proper_format r.full_name <;>
          simp [validateUser, errOpt, exOk, hu, he, hp, hf]

lemma validateUser_ok_of_exOk (r : RawUser)
    (h : exOk (validateUser r) = true) :
    validateUser r = Except.ok ⟨r.username, r.email, r.password, r.full_name⟩ := by
  cases hv : validateUser r with
  | error es => rw [hv] at h; simp [exOk] at h
  | ok u => rw [validateUser_ok_val r u hv]

lemma validateUser_error_mem (r : RawUser) (es : List FieldError)
    (h : validateUser r = Except.error es) :
    es ≠ [] ∧
    (∀ m, (⟨"username", m⟩ : FieldError) ∈ es ↔
      username_must_be_alphanumeric r.username = Except.error m) ∧
    (∀ m, (⟨"email", m⟩ : FieldError) ∈ es ↔
      validate_email r.email = Except.error m) ∧
    (∀ m, (⟨"password", m⟩ : FieldError) ∈ es ↔
      password_must_be_strong r.password = Except.error m) ∧
    (∀ m, (⟨"full_name", m⟩ : FieldError) ∈ es ↔
      full_name_must_be_proper_format r.full_name = Except.error m) := by
  cases hu : username_must_be_alphanumeric r.username <;>
    cases he : validate_email r.email <;>
      cases hp : password_must_be_strong r.password <;>
        cases hf : full_name_must_be_proper_format r.full_name <;>
          simp [validateUser, errOpt, hu, he, hp, hf] at h <;>
            subst h <;>
              simp [hu, he, hp, hf] <;>
                aesop

end Lemmas

/-- C1: `password_must_be_strong` accepts a password if and only if all
five rules hold (length at least 8, at least one uppercase Latin letter,
at least one lowercase Latin letter, at least one decimal digit, at
least one special character from the fixed set); and every rejection
carries a message identifying a rule that the password indeed violates. -/
theorem C1_password_rules :
    (∀ v : PyStr, password_must_be_strong v = Except.ok v ↔
      (8 ≤ v.length ∧ v.any isUpperLatin = true ∧ v.any isLowerLatin = true ∧
       v.any isDigitChar = true ∧ v.any isSpecialChar = true)) ∧
    (∀ (v : PyStr) (m : String), password_must_be_strong v = Except.error m →
      (m = "Password must be at least 8 characters long" ∧ v.length < 8) ∨
      (m = "Password must contain at least one uppercase letter" ∧
        v.any isUpperLatin = false) ∨
      (m = "Password must contain at least one lowercase letter" ∧
        v.any isLowerLatin = false) ∨
      (m = "Password must contain at least one number" ∧
        v.any isDigitChar = false) ∨
      (m = "Password must contain at least one special character" ∧
        v.any isSpecialChar = false)) := by
  refine ⟨password_ok_iff, ?_⟩
  intro v m h
  unfold password_must_be_strong at h
  split_ifs at h with h1 h2 h3 h4 h5
  · exact Or.inl ⟨(Except.error.inj h).symm, h1⟩
  · exact Or.inr (Or.inl ⟨(Except.error.inj h).symm, h2⟩)
  · exact Or.inr (Or.inr (Or.inl ⟨(Except.error.inj h).symm, h3⟩))
  · exact Or.inr (Or.inr (Or.inr (Or.inl ⟨(Except.error.inj h).symm, h4⟩)))
  · exact Or.inr (Or.inr (Or.inr (Or.inr ⟨(Except.error.inj h).symm, h5⟩)))

/-- Witness for C1: `Str0ng!Pass` satisfies all five rules via the
accept direction, and the rejection of `weak` is identified as a
violation of the length rule. -/
theorem C1_password_rules_witness :
    (8 ≤ ("Str0ng!Pass".toList : PyStr).length ∧
     ("Str0ng!Pass".toList : PyStr).any isUpperLatin = true ∧
     ("Str0ng!Pass".toList : PyStr).any isLowerLatin = true ∧
     ("Str0ng!Pass".toList : PyStr).any isDigitChar = true ∧
     ("Str0ng!Pass".toList : PyStr).any isSpecialChar = true) ∧
    (("Password must be at least 8 characters long" =
        "Password must be at least 8 characters long" ∧
      ("weak".toList : PyStr).length < 8) ∨
     ("Password must be at least 8 characters long" =
        "Password must contain at least one uppercase letter" ∧
      ("weak".toList : PyStr).any isUpperLatin = false) ∨
     ("Password must be at least 8 characters long" =
        "Password must contain at least one lowercase letter" ∧
      ("weak".toList : PyStr).any isLowerLatin = false) ∨
     ("Password must be at least 8 characters long" =
        "Password must contain at least one number" ∧
      ("weak".toList : PyStr).any isDigitChar = false) ∨
     ("Password must be at least 8 characters long" =
        "Password must contain at least one special character" ∧
      ("weak".toList : PyStr).any isSpecialChar = false)) :=
  ⟨(C1_password_rules.1 "Str0ng!Pass".toList).mp (by rfl),
   C1_password_rules.2 "weak".toList
     "Password must be at least 8 characters long" (by rfl)⟩

/-- C2: `username_must_be_alphanumeric` accepts a username if and only
if every character is alphanumeric and the length is between 3 and 20
inclusive; the empty string is rejected by the alphanumeric check, and
any username containing a non-alphanumeric character is rejected by
that same check. -/
theorem C2_username_rules :
    (∀ v : PyStr, username_must_be_alphanumeric v = Except.ok v ↔
      (v.all pyIsAlnum = true ∧ 3 ≤ v.length ∧ v.length ≤ 20)) ∧
    username_must_be_alphanumeric [] =
      Except.error "Username must be alphanumeric (letters and numbers only)" ∧
    (∀ v : PyStr, ∀ c ∈ v, pyIsAlnum c = false →
      username_must_be_alphanumeric v =
        Except.error "Username must be alphanumeric (letters and numbers only)") := by
  refine ⟨username_ok_iff, rfl, ?_⟩
  intro v c hc hcf
  have hall : v.all pyIsAlnum = false := by
    rw [List.all_eq_false]
    exact ⟨c, hc, by simp [hcf]⟩
  have : pyStrIsAlnum v = false := by
    simp [pyStrIsAlnum, hall]
  unfold username_must_be_alphanumeric
  rw [if_pos this]

/-- Witness for C2: the rejection branch applied to `user_name`, whose
underscore is not alphanumeric. -/
theorem C2_username_rules_witness :
    username_must_be_alphanumeric "user_name".toList =
      Except.error "Username must be alphanumeric (letters and numbers only)" :=
  C2_username_rules.2.2 "user_name".toList '_' (by decide) (by decide)

/-- C3: `full_name_must_be_proper_format` accepts an absent full name
unconditionally, and accepts a present one if and only if every
character is in the allowed class (Latin letter, whitespace, hyphen,
apostrophe, period) and the length is between 2 and 50 inclusive. -/
theorem C3_full_name_rules :
    full_name_must_be_proper_format none = Except.ok none ∧
    (∀ s : PyStr, full_name_must_be_proper_format (some s) = Except.ok (some s) ↔
      (s.all fullNameAllowed = true ∧ 2 ≤ s.length ∧ s.length ≤ 50)) :=
  ⟨rfl, fullname_ok_some_iff⟩

/-- C4: for every request accepted by all four validators, `create_user`
appends to the database exactly one record copying the four request
fields verbatim, with `join_date` set to the timestamp taken at the call
and `validation_status` the literal `passed`; no deduplication occurs,
so a second identical accepted request appends a second identical
record. -/
theorem C4_create_user_stores_verbatim :
    ∀ (now : PyStr) (db : List UserRecord) (r : RawUser),
      exOk (validateUser r) = true →
      create_user now db r =
        (Except.ok ⟨r.username, r.email, r.full_name, now, "passed"⟩,
         db ++ [⟨r.username, r.email, r.full_name, now, r.password, "passed"⟩]) ∧
      (create_user now ((create_user now db r).2) r).2 =
        db ++ [⟨r.username, r.email, r.full_name, now, r.password, "passed"⟩,
               ⟨r.username, r.email, r.full_name, now, r.password, "passed"⟩] := by
  intro now db r h
  have hok := validateUser_ok_of_exOk r h
  constructor
  · simp [create_user, hok, toUserOut]
  · simp [create_user, hok, toUserOut]

/-- Witness for C4: the accepted example payload appends its record, and
sending it twice appends it twice. -/
theorem C4_create_user_stores_verbatim_witness :
    create_user "2024-01-01T00:00:00".toList []
        ⟨"alice1".toList, "alice@example.com".toList, "Str0ng!Pass".toList,
         some "Alice A.".toList⟩ =
      (Except.ok ⟨"alice1".toList, "alice@example.com".toList,
         some "Alice A.".toList, "2024-01-01T00:00:00".toList, "passed"⟩,
       [] ++ [⟨"alice1".toList, "alice@example.com".toList,
         some "Alice A.".toList, "2024-01-01T00:00:00".toList,
         "Str0ng!Pass".toList, "passed"⟩]) ∧
    (create_user "2024-01-01T00:00:00".toList
        ((create_user "2024-01-01T00:00:00".toList []
          ⟨"alice1".toList, "alice@example.com".toList, "Str0ng!Pass".toList,
           some "Alice A.".toList⟩).2)
        ⟨"alice1".toList, "alice@example.com".toList, "Str0ng!Pass".toList,
         some "Alice A.".toList⟩).2 =
      [] ++ [⟨"alice1".toList, "alice@example.com".toList,
         some "Alice A.".toList, "2024-01-01T00:00:00".toList,
         "Str0ng!Pass".toList, "passed"⟩,
       ⟨"alice1".toList, "alice@example.com".toList,
         some "Alice A.".toList, "2024-01-01T00:00:00".toList,
         "Str0ng!Pass".toList, "passed"⟩] :=
  C4_create_user_stores_verbatim "2024-01-01T00:00:00".toList []
    ⟨"alice1".toList, "alice@example.com".toList, "Str0ng!Pass".toList,
     some "Alice A.".toList⟩ (by rfl)

/-- C5: the response view never carries the password: the view of a
record is unchanged by any change to the stored password, and every
successful `create_user` response is exactly the five-field view
(username, email, full_name, join_date, validation_status) of the
request plus timestamp. -/
theorem C5_no_password_in_response :
    (∀ (u : UserRecord) (p : PyStr),
      toUserOut { u with password := p } = toUserOut u) ∧
    (∀ (now : PyStr) (db : List UserRecord) (r : RawUser)
        (res : UserOut) (db2 : List UserRecord),
      create_user now db r = (Except.ok res, db2) →
      res = ⟨r.username, r.email, r.full_name, now, "passed"⟩) := by
  constructor
  · intro u p; rfl
  · intro now db r res db2 h
    cases hv : validateUser r with
    | error es => simp [create_user, hv] at h
    | ok u =>
      rw [validateUser_ok_val r u hv] at hv
      simp [create_user, hv, toUserOut] at h
      exact h.1.symm

/-- Witness for C5: the response to the accepted example payload is its
five-field view, and changing the stored password of the resulting
record leaves its view untouched. -/
theorem C5_no_password_in_response_witness :
    toUserOut ⟨"alice1".toList, "alice@example.com".toList,
        some "Alice A.".toList, "2024-01-01T00:00:00".toList,
        "Changed000!".toList, "passed"⟩ =
      toUserOut ⟨"alice1".toList, "alice@example.com".toList,
        some "Alice A.".toList, "2024-01-01T00:00:00".toList,
        "Str0ng!Pass".toList, "passed"⟩ ∧
    (⟨"alice1".toList, "alice@example.com".toList, some "Alice A.".toList,
        "2024-01-01T00:00:00".toList, "passed"⟩ : UserOut) =
      ⟨"alice1".toList, "alice@example.com".toList, some "Alice A.".toList,
        "2024-01-01T00:00:00".toList, "passed"⟩ :=
  ⟨C5_no_password_in_response.1
     ⟨"alice1".toList, "alice@example.com".toList, some "Alice A.".toList,
      "2024-01-01T00:00:00".toList, "Str0ng!Pass".toList, "passed"⟩
     "Changed000!".toList,
   C5_no_password_in_response.2 "2024-01-01T00:00:00".toList []
     ⟨"alice1".toList, "alice@example.com".toList, "Str0ng!Pass".toList,
      some "Alice A.".toList⟩
     ⟨"alice1".toList, "alice@example.com".toList, some "Alice A.".toList,
      "2024-01-01T00:00:00".toList, "passed"⟩
     [⟨"alice1".toList, "alice@example.com".toList, some "Alice A.".toList,
       "2024-01-01T00:00:00".toList, "Str0ng!Pass".toList, "passed"⟩]
     (by rfl)⟩

/-- C6: a request rejected by any field validator fails with the
validation errors and leaves the database unchanged, and the database
grows by one exactly when validation accepts. -/
theorem C6_rejected_request_leaves_storage :
    ∀ (now : PyStr) (db : List UserRecord) (r : RawUser),
      (∀ es, validateUser r = Except.error es →
        create_user now db r = (Except.error es, db)) ∧
      ((create_user now db r).2.length = db.length + 1 ↔
        exOk (validateUser r) = true) := by
  intro now db r
  constructor
  · intro es h; simp [create_user, h]
  · cases hv : validateUser r with
    | error es => simp [create_user, hv, exOk]
    | ok u => simp [create_user, hv, exOk]

/-- Witness for C6: the example payload with password `weak` is rejected
with the password length error and storage stays empty; the storage
growth equivalence holds for the same rejected call. -/
theorem C6_rejected_request_leaves_storage_witness :
    create_user "2024-01-01T00:00:00".toList []
        ⟨"alice1".toList, "alice@example.com".toList, "weak".toList,
         some "Alice A.".toList⟩ =
      (Except.error [⟨"password", "Password must be at least 8 characters long"⟩],
       []) :=
  (C6_rejected_request_leaves_storage "2024-01-01T00:00:00".toList []
    ⟨"alice1".toList, "alice@example.com".toList, "weak".toList,
     some "Alice A.".toList⟩).1
    [⟨"password", "Password must be at least 8 characters long"⟩] (by rfl)

/-- C7 counterexample: a payload whose username and password both
violate a rule produces a validation error carrying TWO entries (one
per failing field), so the caller does not receive a single validator's
error with one field name and one rule message. -/
theorem C7_single_error_counterexample :
    validateUser ⟨"a!".toList, "alice@example.com".toList, "weak".toList,
        some "Alice".toList⟩ =
      Except.error
        [⟨"username", "Username must be alphanumeric (letters and numbers only)"⟩,
         ⟨"password", "Password must be at least 8 characters long"⟩] := by
  rfl

/-- C7 amended: within a single field the first failing rule
short-circuits that field and only its message is reported for the
field, and any failure aborts the create-user operation with the
database untouched; but failing fields are aggregated — the error the
caller receives carries exactly one entry per failing field, each
entry's message being that field's validator error. -/
theorem C7_first_failure_per_field :
    (∀ (r : RawUser) (es : List FieldError),
      validateUser r = Except.error es →
      es ≠ [] ∧
      (∀ m, (⟨"username", m⟩ : FieldError) ∈ es ↔
        username_must_be_alphanumeric r.username = Except.error m) ∧
      (∀ m, (⟨"email", m⟩ : FieldError) ∈ es ↔
        validate_email r.email = Except.error m) ∧
      (∀ m, (⟨"password", m⟩ : FieldError) ∈ es ↔
        password_must_be_strong r.password = Except.error m) ∧
      (∀ m, (⟨"full_name", m⟩ : FieldError) ∈ es ↔
        full_name_must_be_proper_format r.full_name = Except.error m)) ∧
    (∀ v : PyStr, v.length < 8 →
      password_must_be_strong v =
        Except.error "Password must be at least 8 characters long") ∧
    (∀ (now : PyStr) (db : List UserRecord) (r : RawUser) (es : List FieldError),
      validateUser r = Except.error es →
      create_user now db r = (Except.error es, db)) := by
  refine ⟨validateUser_error_mem, ?_, ?_⟩
  · intro v hlen
    unfold password_must_be_strong
    rw [if_pos hlen]
  · intro now db r es h
    simp [create_user, h]

/-- Witness for C7 amended: the double-failure payload yields a
nonempty error list, the short password `weak` is cut off at the length
rule even though it also lacks an uppercase letter, a digit and a
special character, and the whole operation aborts with the database
unchanged. -/
theorem C7_first_failure_per_field_witness :
    ([⟨"username", "Username must be alphanumeric (letters and numbers only)"⟩,
      ⟨"password", "Password must be at least 8 characters long"⟩] :
        List FieldError) ≠ [] ∧
    password_must_be_strong "weak".toList =
      Except.error "Password must be at least 8 characters long" ∧
    create_user "2024-01-01T00:00:00".toList []
        ⟨"a!".toList, "alice@example.com".toList, "weak".toList,
         some "Alice".toList⟩ =
      (Except.error
        [⟨"username", "Username must be alphanumeric (letters and numbers only)"⟩,
         ⟨"password", "Password must be at least 8 characters long"⟩], []) :=
  ⟨(C7_first_failure_per_field.1
      ⟨"a!".toList, "alice@example.com".toList, "weak".toList,
       some "Alice".toList⟩
      [⟨"username", "Username must be alphanumeric (letters and numbers only)"⟩,
       ⟨"password", "Password must be at least 8 characters long"⟩] (by rfl)).1,
   C7_first_failure_per_field.2.1 "weak".toList (by decide),
   C7_first_failure_per_field.2.2 "2024-01-01T00:00:00".toList []
     ⟨"a!".toList, "alice@example.com".toList, "weak".toList,
      some "Alice".toList⟩
     [⟨"username", "Username must be alphanumeric (letters and numbers only)"⟩,
      ⟨"password", "Password must be at least 8 characters long"⟩] (by rfl)⟩

/-- C8: both read-only handlers are constant functions returning fixed
documents; the rules document's numeric and boolean parameters are
exactly the bounds and character-class requirements the validators
enforce, and `full_name` is indeed optional. -/
theorem C8_static_descriptions_match_validators :
    get_validation_rules () =
      ⟨⟨8, true, true, true, true⟩, ⟨true, 3, 20⟩,
       ⟨"letters, spaces, hyphens, apostrophes, periods", 2, 50, true⟩⟩ ∧
    root () = ⟨"FastAPI Advanced Validation Demo", "POST /users/",
       "GET /validation-rules/", "GET /docs"⟩ ∧
    (∀ x y : Unit, get_validation_rules x = get_validation_rules y) ∧
    (∀ x y : Unit, root x = root y) ∧
    (∀ v : PyStr, password_must_be_strong v = Except.ok v ↔
      ((get_validation_rules ()).password_rules.min_length ≤ v.length ∧
       v.any isUpperLatin = (get_validation_rules ()).password_rules.requires_uppercase ∧
       v.any isLowerLatin = (get_validation_rules ()).password_rules.requires_lowercase ∧
       v.any isDigitChar = (get_validation_rules ()).password_rules.requires_number ∧
       v.any isSpecialChar = (get_validation_rules ()).password_rules.requires_special_char)) ∧
    (∀ v : PyStr, username_must_be_alphanumeric v = Except.ok v ↔
      (v.all pyIsAlnum = (get_validation_rules ()).username_rules.alphanumeric_only ∧
       (get_validation_rules ()).username_rules.min_length ≤ v.length ∧
       v.length ≤ (get_validation_rules ()).username_rules.max_length)) ∧
    ((get_validation_rules ()).full_name_rules.optional = true ∧
     full_name_must_be_proper_format none = Except.ok none) ∧
    (∀ s : PyStr, full_name_must_be_proper_format (some s) = Except.ok (some s) ↔
      (s.all fullNameAllowed = true ∧
       (get_validation_rules ()).full_name_rules.min_length ≤ s.length ∧
       s.length ≤ (get_validation_rules ()).full_name_rules.max_length)) := by
  refine ⟨rfl, rfl, fun _ _ => rfl, fun _ _ => rfl, ?_, ?_, ⟨rfl, rfl⟩, ?_⟩
  · intro v; simpa [get_validation_rules] using password_ok_iff v
  · intro v; simpa [get_validation_rules] using username_ok_iff v
  · intro s; simpa [get_validation_rules] using fullname_ok_some_iff s

/-- C9: the username check is Unicode-aware: usernames made of accented
Latin letters, CJK ideographs, or non-ASCII digits (all of length 3 to
20) are accepted, and each example indeed contains characters beyond
ASCII. -/
theorem C9_unicode_aware_usernames :
    username_must_be_alphanumeric "José1".toList =
      Except.ok "José1".toList ∧
    username_must_be_alphanumeric "用户名".toList =
      Except.ok "用户名".toList ∧
    username_must_be_alphanumeric "abc١٢٣".toList =
      Except.ok "abc١٢٣".toList ∧
    "José1".toList.any (fun c => decide (127 < c.toNat)) = true ∧
    "用户名".toList.all (fun c => decide (127 < c.toNat)) = true ∧
    "abc١٢٣".toList.any (fun c => decide (127 < c.toNat)) = true :=
  ⟨rfl, rfl, rfl, rfl, rfl, rfl⟩

/-- C10: a present full name need not contain any letter: concrete
letterless names of length 2 (hyphens, spaces, periods) are accepted,
and in general every string of length 2 to 50 made only of whitespace,
hyphens, apostrophes and periods is accepted. -/
theorem C10_letterless_full_names :
    full_name_must_be_proper_format (some "--".toList) =
      Except.ok (some "--".toList) ∧
    full_name_must_be_proper_format (some "  ".toList) =
      Except.ok (some "  ".toList) ∧
    full_name_must_be_proper_format (some "-. ".toList) =
      Except.ok (some "-. ".toList) ∧
    ("--".toList ++ "  ".toList ++ "-. ".toList).all
      (fun c => !(isUpperLatin c || isLowerLatin c)) = true ∧
    (∀ s : PyStr,
      s.all (fun c => pyIsSpace c || c = '-' || c = Char.ofNat 0x27 || c = '.') = true →
      2 ≤ s.length → s.length ≤ 50 →
      full_name_must_be_proper_format (some s) = Except.ok (some s)) := by
  refine ⟨rfl, rfl, rfl, rfl, ?_⟩
  intro s hsub h2 h50
  refine (fullname_ok_some_iff s).mpr ⟨?_, h2, h50⟩
  rw [List.all_eq_true] at hsub ⊢
  intro c hc
  have h := hsub c hc
  simp only [Bool.or_eq_true, decide_eq_true_eq] at h
  simp only [fullNameAllowed, Bool.or_eq_true, decide_eq_true_eq]
  tauto

/-- Witness for C10: the general letterless acceptance applied to the
concrete two-hyphen name. -/
theorem C10_letterless_full_names_witness :
    full_name_must_be_proper_format (some ['-', '-']) =
      Except.ok (some ['-', '-']) :=
  C10_letterless_full_names.2.2.2.2 ['-', '-'] (by decide) (by decide) (by decide)

end FastAPIValidation
